import Mathlib

/-!
Shallow embedding of `src/main.py` (monika774/Assignment_tradex).

The script defines three dataclasses (`User`, `Product`, `Order`), a
`DatabaseManager` owning three SQLite tables (one per entity), pure
validation methods, insert methods that translate exceptions to
`(success, message)` pairs, a `get_all_data` fetch, and a `main` driver
that inserts a fixed sample dataset and prints reports.

Modelling choices, each traced to the source:
- Python `int` is `Int`; Python `str` is `String`.  `Product.price` is a
  Python `float`; the script only ever compares it with `0` and stores it,
  and every sample literal is exact, so it is embedded as `Rat`.
- The three SQLite tables become three Lean lists inside a `DB` structure.
  The schema (`setup_databases`, main.py lines 41-71) declares
  `id INTEGER PRIMARY KEY` on every table and additionally
  `email TEXT UNIQUE NOT NULL` on `users`; an `INSERT` violating one of
  these raises `sqlite3.IntegrityError`, which the insert methods catch and
  turn into `(False, "Database error: ...")` (main.py lines 112-113).
  The embedding checks the id constraint and then the email constraint
  explicitly.  (When both are violated at once SQLite picks one message;
  no theorem below depends on that case.)
- `re.match` with the pattern `^[a-zA-Z0-9._%+-]+@[a-zA-Z0-9.-]+\.[a-zA-Z]\x7b2,\x7d$`
  (main.py line 79) is embedded as the executable `matchEmail`.  Since the
  three character classes all exclude `@` and the trailing class excludes
  `.`, a string matches exactly when it splits as
  `local ++ "@" ++ domain ++ "." ++ tld` at the first `@` and the last `.`,
  with `local` and `domain` nonempty over their classes and `tld` at least
  two alphabetic characters.  (In Python the anchor `$` would also accept one
  trailing newline; no string in the program contains a newline.)
- `SELECT * FROM t` without `ORDER BY` returns rows in rowid order, and on
  these tables `id INTEGER PRIMARY KEY` is the rowid, so `get_all_data`
  returns each table sorted by ascending id.
- The `ThreadPoolExecutor` block of the driver (main.py lines 220-246) never
  calls `submit`; the three loops run sequentially on the main thread, so
  the run is embedded as a sequential fold.
-/

/-- Dataclass `User` (main.py lines 15-19). -/
structure User where
  id : Int
  name : String
  email : String
deriving DecidableEq, Repr

/-- Dataclass `Product` (main.py lines 22-26); `price : float` embedded as `Rat`. -/
structure Product where
  id : Int
  name : String
  price : Rat
deriving DecidableEq, Repr

/-- Dataclass `Order` (main.py lines 29-34). -/
structure Order where
  id : Int
  user_id : Int
  product_id : Int
  quantity : Int
deriving DecidableEq, Repr

/-- Character class `[a-zA-Z0-9._%+-]` of the local part of the email pattern. -/
def isLocalChar (c : Char) : Bool :=
  c.isAlpha || c.isDigit || c == '.' || c == '_' || c == '%' || c == '+' || c == '-'

/-- Character class `[a-zA-Z0-9.-]` of the domain part of the email pattern. -/
def isDomainChar (c : Char) : Bool :=
  c.isAlpha || c.isDigit || c == '.' || c == '-'

/-- Embeds `re.match(email_pattern, email)` for the pattern
`^[a-zA-Z0-9._%+-]+@[a-zA-Z0-9.-]+\.[a-zA-Z]\x7b2,\x7d$` (main.py lines 79-80):
split at the first `@` and the last `.` after it. -/
def matchEmail (s : String) : Bool :=
  let cs := s.data
  let l := cs.takeWhile (fun c => c != '@')
  match cs.dropWhile (fun c => c != '@') with
  | [] => false
  | _ :: r =>
    match r.reverse.dropWhile (fun c => c != '.') with
    | [] => false
    | _ :: mrev =>
      let t := r.reverse.takeWhile (fun c => c != '.')
      !l.isEmpty && l.all isLocalChar &&
      !mrev.isEmpty && mrev.all isDomainChar &&
      decide (2 ≤ t.length) && t.all Char.isAlpha

/-- Embeds `DatabaseManager.validate_user` (main.py lines 73-82).  In Python,
`not user.name` is true exactly for the empty string; the `isinstance`
checks are always true on well-typed values. -/
def validate_user (u : User) : Option String :=
  if u.name = "" then some "Invalid name"
  else if u.email = "" then some "Invalid email"
  else if !matchEmail u.email then some "Invalid email format"
  else none

/-- Embeds `DatabaseManager.validate_product` (main.py lines 84-90). -/
def validate_product (p : Product) : Option String :=
  if p.name = "" then some "Invalid product name"
  else if p.price < 0 then some "Invalid price - must be non-negative"
  else none

/-- Embeds `DatabaseManager.validate_order` (main.py lines 92-98). -/
def validate_order (o : Order) : Option String :=
  if o.quantity < 0 then some "Invalid quantity - must be non-negative"
  else if o.user_id < 1 || o.product_id < 1 then some "Invalid user_id or product_id"
  else none

/-- The state of the three SQLite tables after the schema exists:
rows of `users.db`, `products.db`, `orders.db` in insertion order. -/
structure DB where
  users : List User
  products : List Product
  orders : List Order
deriving DecidableEq, Repr

/-- The validators as methods: `self.validate_user(user)` reads no state of
`self` and returns it unchanged (main.py lines 73-82). -/
def validateUserM (db : DB) (u : User) : Option String × DB :=
  (validate_user u, db)

/-- The call `self.validate_product(product)` as a method (main.py lines 84-90). -/
def validateProductM (db : DB) (p : Product) : Option String × DB :=
  (validate_product p, db)

/-- The call `self.validate_order(order)` as a method (main.py lines 92-98). -/
def validateOrderM (db : DB) (o : Order) : Option String × DB :=
  (validate_order o, db)

/-- Embeds `DatabaseManager.insert_user` (main.py lines 100-115): validate, then
attempt a single-row insert; `users.id` is `INTEGER PRIMARY KEY` and
`users.email` is `UNIQUE`, so a duplicate id or duplicate email raises
`sqlite3.IntegrityError`, caught and returned as `(False, "Database error: ...")`. -/
def insert_user (db : DB) (u : User) : (Bool × String) × DB :=
  match (validateUserM db u).1 with
  | some e => ((false, e), db)
  | none =>
    if db.users.any (fun r => r.id == u.id) then
      ((false, "Database error: UNIQUE constraint failed: users.id"), db)
    else if db.users.any (fun r => r.email == u.email) then
      ((false, "Database error: UNIQUE constraint failed: users.email"), db)
    else
      ((true, "Success"), { db with users := db.users ++ [u] })

/-- Embeds `DatabaseManager.insert_product` (main.py lines 117-132): only
`products.id` is constrained (`INTEGER PRIMARY KEY`). -/
def insert_product (db : DB) (p : Product) : (Bool × String) × DB :=
  match (validateProductM db p).1 with
  | some e => ((false, e), db)
  | none =>
    if db.products.any (fun r => r.id == p.id) then
      ((false, "Database error: UNIQUE constraint failed: products.id"), db)
    else
      ((true, "Success"), { db with products := db.products ++ [p] })

/-- Embeds `DatabaseManager.insert_order` (main.py lines 134-149): only
`orders.id` is constrained; no referential check against users or products. -/
def insert_order (db : DB) (o : Order) : (Bool × String) × DB :=
  match (validateOrderM db o).1 with
  | some e => ((false, e), db)
  | none =>
    if db.orders.any (fun r => r.id == o.id) then
      ((false, "Database error: UNIQUE constraint failed: orders.id"), db)
    else
      ((true, "Success"), { db with orders := db.orders ++ [o] })

/-- Embeds `DatabaseManager.get_all_data` (main.py lines 153-169): `SELECT *` on each
table; rows come back in rowid order, which is ascending id here. -/
def get_all_data (db : DB) : List User × List Product × List Order :=
  (db.users.mergeSort (fun a b => a.id ≤ b.id),
   db.products.mergeSort (fun a b => a.id ≤ b.id),
   db.orders.mergeSort (fun a b => a.id ≤ b.id))

/-- The state of the three database files before `setup_databases` is known
to have run: `none` means the table does not exist yet in that file. -/
structure FileState where
  users : Option (List User)
  products : Option (List Product)
  orders : Option (List Order)
deriving DecidableEq, Repr

/-- Embeds `DatabaseManager.setup_databases` (main.py lines 41-71):
`CREATE TABLE IF NOT EXISTS` on each of the three files — creates the table
empty when absent and leaves it untouched when present. -/
def setup_databases (s : FileState) : FileState :=
  { users := some (s.users.getD [])
    products := some (s.products.getD [])
    orders := some (s.orders.getD []) }

/-- The `users` sample dataset of `main` (main.py lines 175-186). -/
def sampleUsers : List User :=
  [⟨1, "Alice", "alice@example.com"⟩,
   ⟨2, "Bob", "bob@example.com"⟩,
   ⟨3, "Charlie", "charlie@example.com"⟩,
   ⟨4, "David", "david@example.com"⟩,
   ⟨5, "Eve", "eve@example.com"⟩,
   ⟨6, "Frank", "frank@example.com"⟩,
   ⟨7, "Grace", "grace@example.com"⟩,
   ⟨8, "Alice", "alice@example.com"⟩,
   ⟨9, "Henry", "henry@example.com"⟩,
   ⟨10, "Jane", "jane@example.com"⟩]

/-- The fully fresh state: no rows in any table (first run, empty files
after `setup_databases`). -/
def emptyDB : DB := ⟨[], [], []⟩

/-- The user-insertion loop of `main` (main.py lines 222-228): sequentially
insert each user, collecting `(id, success, message)` outcomes in order. -/
def runUserInserts (db : DB) : List User → List (Int × Bool × String) × DB
  | [] => ([], db)
  | u :: us =>
    let r := insert_user db u
    let rest := runUserInserts r.2 us
    ((u.id, r.1.1, r.1.2) :: rest.1, rest.2)

/-- C3: a record that fails validation is rejected with the validation
message and the store state is unchanged — validation runs first and
short-circuits, so no storage call happens (main.py lines 100-103, 117-120,
134-137). -/
theorem invalid_record_rejected_state_unchanged :
    (∀ (db : DB) (u : User) (e : String), validate_user u = some e →
      insert_user db u = ((false, e), db)) ∧
    (∀ (db : DB) (p : Product) (e : String), validate_product p = some e →
      insert_product db p = ((false, e), db)) ∧
    (∀ (db : DB) (o : Order) (e : String), validate_order o = some e →
      insert_order db o = ((false, e), db)) := by
  refine ⟨?_, ?_, ?_⟩ <;>
    (intro db x e h;
     simp [insert_user, insert_product, insert_order,
           validateUserM, validateProductM, validateOrderM, h])

/-- Witness for C3 at concrete invalid records. -/
theorem invalid_record_rejected_state_unchanged_witness :
    insert_user emptyDB ⟨1, "", "e@x.com"⟩ = ((false, "Invalid name"), emptyDB) ∧
    insert_product emptyDB ⟨1, "", 5⟩ = ((false, "Invalid product name"), emptyDB) ∧
    insert_order emptyDB ⟨1, 1, 1, -2⟩ =
      ((false, "Invalid quantity - must be non-negative"), emptyDB) :=
  ⟨invalid_record_rejected_state_unchanged.1 emptyDB _ _ (by decide),
   invalid_record_rejected_state_unchanged.2.1 emptyDB _ _ (by decide),
   invalid_record_rejected_state_unchanged.2.2 emptyDB _ _ (by decide)⟩

/-- C9: each validation method is pure and deterministic — equal entity
values give equal results regardless of the state of `self`, and the state
is returned unchanged (main.py lines 73-98 read and write no state). -/
theorem validators_pure_deterministic :
    (∀ (db db' : DB) (u u' : User), u = u' →
      (validateUserM db u).1 = (validateUserM db' u').1 ∧
      (validateUserM db u).2 = db) ∧
    (∀ (db db' : DB) (p p' : Product), p = p' →
      (validateProductM db p).1 = (validateProductM db' p').1 ∧
      (validateProductM db p).2 = db) ∧
    (∀ (db db' : DB) (o o' : Order), o = o' →
      (validateOrderM db o).1 = (validateOrderM db' o').1 ∧
      (validateOrderM db o).2 = db) := by
  refine ⟨?_, ?_, ?_⟩ <;> (rintro db db' x x' rfl; exact ⟨rfl, rfl⟩)

/-- Witness for C9: the user validator gives the same answer on an empty
store and on a populated store, and returns each state unchanged. -/
theorem validators_pure_deterministic_witness :
    ((validateUserM emptyDB ⟨1, "Alice", "alice@example.com"⟩).1 =
       (validateUserM ⟨sampleUsers, [], []⟩ ⟨1, "Alice", "alice@example.com"⟩).1 ∧
     (validateUserM emptyDB ⟨1, "Alice", "alice@example.com"⟩).2 = emptyDB) ∧
    ((validateProductM emptyDB ⟨1, "Laptop", 1000⟩).1 =
       (validateProductM ⟨sampleUsers, [], []⟩ ⟨1, "Laptop", 1000⟩).1 ∧
     (validateProductM emptyDB ⟨1, "Laptop", 1000⟩).2 = emptyDB) ∧
    ((validateOrderM emptyDB ⟨1, 1, 1, 2⟩).1 =
       (validateOrderM ⟨sampleUsers, [], []⟩ ⟨1, 1, 1, 2⟩).1 ∧
     (validateOrderM emptyDB ⟨1, 1, 1, 2⟩).2 = emptyDB) :=
  ⟨validators_pure_deterministic.1 emptyDB ⟨sampleUsers, [], []⟩ _ _ rfl,
   validators_pure_deterministic.2.1 emptyDB ⟨sampleUsers, [], []⟩ _ _ rfl,
   validators_pure_deterministic.2.2 emptyDB ⟨sampleUsers, [], []⟩ _ _ rfl⟩

/-- C5: for a product with a nonempty name, validation fails with the
invalid-price message exactly when the price is strictly negative; an empty
name fails with the invalid-name message; and the sample
`Product(10, "Earbuds", -50.00)` is rejected by every store state with the
invalid-price message and no row added (main.py lines 84-90, 198). -/
theorem product_price_validation :
    (∀ p : Product, p.name ≠ "" →
      (validate_product p = some "Invalid price - must be non-negative" ↔
        p.price < 0)) ∧
    (∀ p : Product, p.name = "" →
      validate_product p = some "Invalid product name") ∧
    (∀ db : DB, insert_product db ⟨10, "Earbuds", -50⟩ =
      ((false, "Invalid price - must be non-negative"), db)) := by
  refine ⟨?_, ?_, ?_⟩
  · intro p h
    rcases lt_or_le p.price 0 with hp | hp
    · simp [validate_product, h, hp]
    · simp [validate_product, h, not_lt.mpr hp, hp, not_lt]
  · intro p h
    simp [validate_product, h]
  · intro db
    rfl

/-- Witness for C5 at concrete products. -/
theorem product_price_validation_witness :
    validate_product ⟨2, "X", -1⟩ = some "Invalid price - must be non-negative" ∧
    validate_product ⟨3, "", 4⟩ = some "Invalid product name" ∧
    insert_product emptyDB ⟨10, "Earbuds", -50⟩ =
      ((false, "Invalid price - must be non-negative"), emptyDB) :=
  ⟨(product_price_validation.1 ⟨2, "X", -1⟩ (by decide)).2 (by norm_num),
   product_price_validation.2.1 ⟨3, "", 4⟩ rfl,
   product_price_validation.2.2 emptyDB⟩

/-- C6: order validation rejects a strictly negative quantity with the
invalid-quantity message (checked first), rejects `user_id < 1` or
`product_id < 1` with the invalid-reference message when the quantity is
non-negative, and the sample `Order(9, 9, 1, -1)` fails with the
invalid-quantity message (main.py lines 92-98, 210). -/
theorem order_validation_messages :
    (∀ o : Order, o.quantity < 0 →
      validate_order o = some "Invalid quantity - must be non-negative") ∧
    (∀ o : Order, 0 ≤ o.quantity → o.user_id < 1 ∨ o.product_id < 1 →
      validate_order o = some "Invalid user_id or product_id") ∧
    validate_order ⟨9, 9, 1, -1⟩ = some "Invalid quantity - must be non-negative" := by
  refine ⟨?_, ?_, by decide⟩
  · intro o h
    simp [validate_order, h]
  · intro o h0 h
    rcases h with h | h <;> simp [validate_order, not_lt.mpr h0, h]

/-- Witness for C6 at concrete orders. -/
theorem order_validation_messages_witness :
    validate_order ⟨1, 1, 1, -5⟩ = some "Invalid quantity - must be non-negative" ∧
    validate_order ⟨2, 0, 1, 3⟩ = some "Invalid user_id or product_id" ∧
    validate_order ⟨9, 9, 1, -1⟩ = some "Invalid quantity - must be non-negative" :=
  ⟨order_validation_messages.1 ⟨1, 1, 1, -5⟩ (by decide),
   order_validation_messages.2.1 ⟨2, 0, 1, 3⟩ (by decide) (Or.inl (by decide)),
   order_validation_messages.2.2⟩

/-- C7: inserting an order performs no referential-integrity check: any
order that passes validation (ids at least 1) and whose own id is fresh is
appended and reported as success, for every store state — in particular the
sample `Order(10, 10, 11, 2)` succeeds even when no product with id 11
exists (main.py lines 134-149, 211). -/
theorem order_no_referential_check :
    (∀ (db : DB) (o : Order), validate_order o = none →
      (db.orders.any fun r => r.id == o.id) = false →
      insert_order db o = ((true, "Success"), { db with orders := db.orders ++ [o] })) ∧
    (∀ db : DB, (db.products.all fun p => p.id != 11) = true →
      (db.orders.any fun r => r.id == 10) = false →
      (insert_order db ⟨10, 10, 11, 2⟩).1 = (true, "Success")) := by
  constructor
  · intro db o hv hid
    simp [insert_order, validateOrderM, hv, hid]
  · intro db _ hid
    have hv : validate_order ⟨10, 10, 11, 2⟩ = none := by decide
    simp [insert_order, validateOrderM, hv, hid]

/-- Witness for C7: the sample order referencing product id 11 succeeds
against a store whose only product has id 1. -/
theorem order_no_referential_check_witness :
    insert_order emptyDB ⟨10, 10, 11, 2⟩ =
      ((true, "Success"), { emptyDB with orders := [] ++ [⟨10, 10, 11, 2⟩] }) ∧
    (insert_order ⟨[], [⟨1, "Laptop", 1000⟩], []⟩ ⟨10, 10, 11, 2⟩).1 = (true, "Success") :=
  ⟨order_no_referential_check.1 emptyDB ⟨10, 10, 11, 2⟩ (by decide) rfl,
   order_no_referential_check.2 ⟨[], [⟨1, "Laptop", 1000⟩], []⟩ (by decide) rfl⟩

/-- C8: `setup_databases` is idempotent — running it twice equals running it
once, it always succeeds (it is a total function), and on a state whose
tables already exist it keeps each table with its contents, creating no
second schema object (`CREATE TABLE IF NOT EXISTS`, main.py lines 41-71). -/
theorem setup_databases_idempotent :
    (∀ s : FileState, setup_databases (setup_databases s) = setup_databases s) ∧
    (∀ (s : FileState) (lu : List User) (lp : List Product) (lo : List Order),
      s.users = some lu → s.products = some lp → s.orders = some lo →
      setup_databases s = ⟨some lu, some lp, some lo⟩) := by
  constructor
  · intro s
    rfl
  · intro s lu lp lo hu hp ho
    simp [setup_databases, hu, hp, ho]

/-- Witness for C8 on a state whose three tables exist with contents. -/
theorem setup_databases_idempotent_witness :
    setup_databases (setup_databases
        ⟨some [⟨1, "Alice", "alice@example.com"⟩], some [], some []⟩) =
      setup_databases ⟨some [⟨1, "Alice", "alice@example.com"⟩], some [], some []⟩ ∧
    setup_databases ⟨some [⟨1, "Alice", "alice@example.com"⟩], some [], some []⟩ =
      ⟨some [⟨1, "Alice", "alice@example.com"⟩], some [], some []⟩ :=
  ⟨setup_databases_idempotent.1 _,
   setup_databases_idempotent.2 _ _ _ _ rfl rfl rfl⟩

/-- C10: the code resolves the bounds non-strictly — for a product with
nonempty name, validation passes exactly when the price is at least 0 (so
price 0 passes); for an order with both reference ids at least 1,
validation passes exactly when the quantity is at least 0 (so quantity 0
passes); and the sample `Order(8, 8, 8, 0)` passes validation and is
inserted whenever its id is fresh (main.py lines 84-98, 209). -/
theorem zero_price_quantity_pass :
    (∀ p : Product, p.name ≠ "" → (validate_product p = none ↔ 0 ≤ p.price)) ∧
    (∀ o : Order, 1 ≤ o.user_id → 1 ≤ o.product_id →
      (validate_order o = none ↔ 0 ≤ o.quantity)) ∧
    validate_order ⟨8, 8, 8, 0⟩ = none ∧
    (∀ db : DB, (db.orders.any fun r => r.id == 8) = false →
      insert_order db ⟨8, 8, 8, 0⟩ =
        ((true, "Success"), { db with orders := db.orders ++ [⟨8, 8, 8, 0⟩] })) := by
  refine ⟨?_, ?_, by decide, ?_⟩
  · intro p h
    rcases lt_or_le p.price 0 with hp | hp
    · simp [validate_product, h, hp, not_le.mpr hp]
    · simp [validate_product, h, not_lt.mpr hp, hp]
  · intro o h1 h2
    rcases lt_or_le o.quantity 0 with hq | hq
    · simp [validate_order, hq, not_le.mpr hq]
    · simp [validate_order, not_lt.mpr hq, not_lt.mpr h1, not_lt.mpr h2, hq]
  · intro db hid
    have hv : validate_order ⟨8, 8, 8, 0⟩ = none := by decide
    simp [insert_order, validateOrderM, hv, hid]

/-- Witness for C10: a zero-price product and the zero-quantity sample
order both pass, and the sample order is inserted into the empty store. -/
theorem zero_price_quantity_pass_witness :
    validate_product ⟨5, "Keyboard", 0⟩ = none ∧
    validate_order ⟨8, 8, 8, 0⟩ = none ∧
    insert_order emptyDB ⟨8, 8, 8, 0⟩ =
      ((true, "Success"), { emptyDB with orders := [] ++ [⟨8, 8, 8, 0⟩] }) :=
  ⟨(zero_price_quantity_pass.1 ⟨5, "Keyboard", 0⟩ (by decide)).mpr (by norm_num),
   zero_price_quantity_pass.2.2.1,
   zero_price_quantity_pass.2.2.2 emptyDB rfl⟩

/-- C1 counterexample: the claim that both sample inserts of
`alice@example.com` succeed is false.  In the sample run from an empty
store, `User(1, "Alice", "alice@example.com")` succeeds but
`User(8, "Alice", "alice@example.com")` returns failure: the `users` schema
declares `email TEXT UNIQUE` (main.py line 48), so the duplicate email
raises an integrity error. -/
theorem sample_user8_duplicate_email_fails :
    (runUserInserts emptyDB sampleUsers).1.get? 0 = some (1, true, "Success") ∧
    (runUserInserts emptyDB sampleUsers).1.get? 7 =
      some (8, false, "Database error: UNIQUE constraint failed: users.email") ∧
    (insert_user (insert_user emptyDB ⟨1, "Alice", "alice@example.com"⟩).2
        ⟨8, "Alice", "alice@example.com"⟩).1.1 = false := by
  refine ⟨rfl, rfl, rfl⟩

/-- C1 amended: for the sample dataset, inserting
`User(1, "Alice", "alice@example.com")` succeeds and the later
`User(8, "Alice", "alice@example.com")` (same name and email, different id)
fails with a database uniqueness error, because the store enforces
uniqueness on the caller-supplied id AND on the email column
(`email TEXT UNIQUE NOT NULL`); the other eight sample users succeed, so
nine rows are stored. -/
theorem sample_user_inserts_results :
    (runUserInserts emptyDB sampleUsers).1 =
      [(1, true, "Success"), (2, true, "Success"), (3, true, "Success"),
       (4, true, "Success"), (5, true, "Success"), (6, true, "Success"),
       (7, true, "Success"),
       (8, false, "Database error: UNIQUE constraint failed: users.email"),
       (9, true, "Success"), (10, true, "Success")] ∧
    (runUserInserts emptyDB sampleUsers).2.users.length = 9 := by
  refine ⟨rfl, rfl⟩

/-- C2 counterexample: a record that passes validation and whose id is
absent from the store can still fail to insert — `User(8, "Alice",
"alice@example.com")` against a store holding only
`User(1, "Alice", "alice@example.com")` is valid and id-fresh, yet
`insert_user` returns failure because of the email uniqueness constraint. -/
theorem valid_fresh_id_user_insert_fails :
    validate_user ⟨8, "Alice", "alice@example.com"⟩ = none ∧
    (List.all [(⟨1, "Alice", "alice@example.com"⟩ : User)] fun r => r.id != 8) = true ∧
    (insert_user ⟨[⟨1, "Alice", "alice@example.com"⟩], [], []⟩
        ⟨8, "Alice", "alice@example.com"⟩).1 =
      (false, "Database error: UNIQUE constraint failed: users.email") := by
  refine ⟨rfl, rfl, rfl⟩

/-- C2 amended: every valid record whose id is fresh — and, for a user,
whose email is also fresh, since `users.email` is declared `UNIQUE` —
inserts successfully, and the subsequent fetch of that entity kind contains
a row equal to the record in every field (main.py lines 100-169). -/
theorem valid_fresh_insert_then_fetch :
    (∀ (db : DB) (u : User), validate_user u = none →
      (db.users.any fun r => r.id == u.id) = false →
      (db.users.any fun r => r.email == u.email) = false →
      (insert_user db u).1 = (true, "Success") ∧
      u ∈ (get_all_data (insert_user db u).2).1) ∧
    (∀ (db : DB) (p : Product), validate_product p = none →
      (db.products.any fun r => r.id == p.id) = false →
      (insert_product db p).1 = (true, "Success") ∧
      p ∈ (get_all_data (insert_product db p).2).2.1) ∧
    (∀ (db : DB) (o : Order), validate_order o = none →
      (db.orders.any fun r => r.id == o.id) = false →
      (insert_order db o).1 = (true, "Success") ∧
      o ∈ (get_all_data (insert_order db o).2).2.2) := by
  refine ⟨?_, ?_, ?_⟩
  · intro db u hv hid hem
    simp [insert_user, validateUserM, hv, hid, hem, get_all_data, List.mem_mergeSort]
  · intro db p hv hid
    simp [insert_product, validateProductM, hv, hid, get_all_data, List.mem_mergeSort]
  · intro db o hv hid
    simp [insert_order, validateOrderM, hv, hid, get_all_data, List.mem_mergeSort]

/-- Witness for the amended C2 at concrete valid records on the empty store. -/
theorem valid_fresh_insert_then_fetch_witness :
    ((insert_user emptyDB ⟨1, "Alice", "alice@example.com"⟩).1 = (true, "Success") ∧
     (⟨1, "Alice", "alice@example.com"⟩ : User) ∈
       (get_all_data (insert_user emptyDB ⟨1, "Alice", "alice@example.com"⟩).2).1) ∧
    ((insert_product emptyDB ⟨1, "Laptop", 1000⟩).1 = (true, "Success") ∧
     (⟨1, "Laptop", 1000⟩ : Product) ∈
       (get_all_data (insert_product emptyDB ⟨1, "Laptop", 1000⟩).2).2.1) ∧
    ((insert_order emptyDB ⟨1, 1, 1, 2⟩).1 = (true, "Success") ∧
     (⟨1, 1, 1, 2⟩ : Order) ∈
       (get_all_data (insert_order emptyDB ⟨1, 1, 1, 2⟩).2).2.2) :=
  ⟨valid_fresh_insert_then_fetch.1 emptyDB _ (by decide) rfl rfl,
   valid_fresh_insert_then_fetch.2.1 emptyDB _ (by decide) rfl,
   valid_fresh_insert_then_fetch.2.2 emptyDB _ (by decide) rfl⟩

/-- C4 counterexample: a record whose id is already present does not always
get a duplicate-key-class failure — `User(1, "", "bad")` against a store
already holding id 1 fails validation first and returns the validation
message `Invalid name`, which is neither of the database-error messages. -/
theorem dup_id_invalid_record_validation_msg :
    (List.any [(⟨1, "Alice", "alice@example.com"⟩ : User)] fun r => r.id == 1) = true ∧
    (insert_user ⟨[⟨1, "Alice", "alice@example.com"⟩], [], []⟩ ⟨1, "", "bad"⟩).1 =
      (false, "Invalid name") ∧
    ("Invalid name" ≠ "Database error: UNIQUE constraint failed: users.id" ∧
     "Invalid name" ≠ "Database error: UNIQUE constraint failed: users.email") := by
  refine ⟨rfl, rfl, by decide, by decide⟩

/-- C4 amended: every record that passes validation and whose id is already
present in the target table gets a duplicate-key failure
`(false, "Database error: ...")` — the integrity error is caught, never
raised to the driver — and the store state (hence the row count) is
unchanged (main.py lines 105-115, 122-132, 139-149). -/
theorem dup_id_insert_rejected :
    (∀ (db : DB) (u : User), validate_user u = none →
      (db.users.any fun r => r.id == u.id) = true →
      insert_user db u =
        ((false, "Database error: UNIQUE constraint failed: users.id"), db)) ∧
    (∀ (db : DB) (p : Product), validate_product p = none →
      (db.products.any fun r => r.id == p.id) = true →
      insert_product db p =
        ((false, "Database error: UNIQUE constraint failed: products.id"), db)) ∧
    (∀ (db : DB) (o : Order), validate_order o = none →
      (db.orders.any fun r => r.id == o.id) = true →
      insert_order db o =
        ((false, "Database error: UNIQUE constraint failed: orders.id"), db)) := by
  refine ⟨?_, ?_, ?_⟩
  · intro db u hv hid
    simp [insert_user, validateUserM, hv, hid]
  · intro db p hv hid
    simp [insert_product, validateProductM, hv, hid]
  · intro db o hv hid
    simp [insert_order, validateOrderM, hv, hid]

/-- Witness for the amended C4 at concrete duplicate-id records. -/
theorem dup_id_insert_rejected_witness :
    insert_user ⟨[⟨1, "Alice", "alice@example.com"⟩], [], []⟩ ⟨1, "Bob", "bob@example.com"⟩ =
      ((false, "Database error: UNIQUE constraint failed: users.id"),
       ⟨[⟨1, "Alice", "alice@example.com"⟩], [], []⟩) ∧
    insert_product ⟨[], [⟨1, "Laptop", 1000⟩], []⟩ ⟨1, "Mouse", 30⟩ =
      ((false, "Database error: UNIQUE constraint failed: products.id"),
       ⟨[], [⟨1, "Laptop", 1000⟩], []⟩) ∧
    insert_order ⟨[], [], [⟨1, 1, 1, 2⟩]⟩ ⟨1, 2, 2, 1⟩ =
      ((false, "Database error: UNIQUE constraint failed: orders.id"),
       ⟨[], [], [⟨1, 1, 1, 2⟩]⟩) :=
  ⟨dup_id_insert_rejected.1 _ _ (by decide) rfl,
   dup_id_insert_rejected.2.1 _ _ (by decide) rfl,
   dup_id_insert_rejected.2.2 _ _ (by decide) rfl⟩
